import Mathlib

/-!
# Verification of the diff-digest resumable streaming-generation client

Shallow embedding of the client in `src/app/page.tsx` (pagination fetcher
`fetchDiffs`, generation session `generateNotes`, localStorage hydration and
mirroring in `Home`) and of the API route `src/app/api/generate-notes/route.ts`.

JavaScript records keyed by string ids (`generatedNotes`, `expandedPRs`,
`interruptedStreams`) are embedded as association lists; the JS spread update
`{...prev, [id]: v}` keeps an existing key in place and appends a fresh key,
which `insertA` mirrors.  Network and stream behaviour is supplied to the
embedded functions as an explicit outcome script, one constructor per control
path of the source.
-/

namespace DiffDigest

/-- An item of the paginated list (interface `DiffItem` in `page.tsx`). -/
structure DiffItem where
  id : String
  description : String
  diff : String
  url : String
deriving DecidableEq, Repr

/-- A raw incoming diff record before field validation: `none` models a field
that is missing or not string-typed (the `typeof … === 'string'` checks in
`fetchDiffs`). -/
structure RawDiff where
  id : Option String
  description : Option String
  diff : Option String
  url : Option String
deriving DecidableEq, Repr

/-! ## Association-list operations mirroring JS object updates -/

/-- Lookup in an association list (JS property read `m[k]`; `none` is
`undefined`). -/
def lookupA {β : Type} : List (String × β) → String → Option β
  | [], _ => none
  | (k, v) :: rest, key => if k = key then some v else lookupA rest key

/-- JS spread update `{...m, [key]: v}`: replaces the value of an existing key
in place, appends a fresh key at the end. -/
def insertA {β : Type} : List (String × β) → String → β → List (String × β)
  | [], key, v => [(key, v)]
  | (k, w) :: rest, key, v =>
    if k = key then (k, v) :: rest else (k, w) :: insertA rest key v

/-- JS `delete m[key]` on a copied object. -/
def eraseA {β : Type} : List (String × β) → String → List (String × β)
  | [], _ => []
  | (k, w) :: rest, key =>
    if k = key then eraseA rest key else (k, w) :: eraseA rest key

/-! ## JS string helpers -/

/-- Boolean prefix test on character lists. -/
def isPrefixList : List Char → List Char → Bool
  | [], _ => true
  | _ :: _, [] => false
  | a :: as, b :: bs => a == b && isPrefixList as bs

/-- Containment of `pat` in `hay` by scanning every suffix. -/
def listContains (pat : List Char) : List Char → Bool
  | [] => isPrefixList pat []
  | c :: rest => isPrefixList pat (c :: rest) || listContains pat rest

/-- JS `s.includes(pat)`. -/
def jsIncludes (s pat : String) : Bool := listContains pat.data s.data

/-- JS `s.trim()`: strip leading and trailing whitespace. -/
def jsTrim (s : String) : String :=
  String.mk (((s.data.dropWhile Char.isWhitespace).reverse.dropWhile Char.isWhitespace).reverse)

/-! ## Thrown JS errors -/

/-- A thrown JS `Error` as the catch blocks of `page.tsx` distinguish them:
either `err.name == 'AbortError'` (fired by the `AbortController` when the
time budget expires or the request is cancelled) or a generic `Error` carrying
a message (a `TypeError` from a failed fetch carries the message
`Failed to fetch`). -/
inductive JsError where
  | abortError
  | error (msg : String)
deriving DecidableEq, Repr

/-! ## Pagination fetcher (`fetchDiffs` in `page.tsx`) -/

/-- The component state touched by `fetchDiffs`: `diffs`, `currentPage`,
`nextPage`, `initialFetchDone`, `isLoading`, `error`. -/
structure PageState where
  diffs : List DiffItem
  currentPage : Int
  nextPage : Option Int
  initialFetchDone : Bool
  isLoading : Bool
  error : Option String
deriving DecidableEq, Repr

/-- The parsed body of a successful `/api/sample-diffs` response (interface
`ApiResponse`). `nextPage : Option Int` embeds `number | null`. -/
structure ApiResponseM where
  diffs : List RawDiff
  nextPage : Option Int
  currentPage : Int
  perPage : Int
deriving DecidableEq, Repr

/-- Outcome script for one `fetchDiffs` call, one constructor per control path
of the source: success, `!response.ok` (with the optional
`errorData.error || errorData.details` body, where `some ""` is a falsy
field), non-JSON content type, malformed structure, `diffs` not an array, or a
rejected `fetch` (abort / network failure). -/
inductive FetchOutcome where
  | ok (data : ApiResponseM)
  | httpError (status : Nat) (body : Option String)
  | notJsonContentType
  | invalidStructure
  | diffsNotArray
  | rejects (e : JsError)
deriving DecidableEq, Repr

/-- `diff.filter(...)` in `fetchDiffs`: keep records whose four fields are all
present and string-typed. -/
def validateDiff (r : RawDiff) : Option DiffItem :=
  match r.id, r.description, r.diff, r.url with
  | some i, some d, some df, some u => some ⟨i, d, df, u⟩
  | _, _, _, _ => none

def validDiffs (l : List RawDiff) : List DiffItem := l.filterMap validateDiff

/-- The message computed for `!response.ok` in `fetchDiffs` (429 / ≥500 / 404
cases, then `errorData.error || errorData.details || errorMsg`). -/
def fetchHttpErrorMsg (status : Nat) (body : Option String) : String :=
  let m :=
    if status == 429 then "Too many requests. Please wait a moment and try again."
    else if 500 ≤ status then "Server error. Please try again later."
    else if status == 404 then "API endpoint not found."
    else "HTTP error! status: " ++ toString status
  match body with
  | some e => if e = "" then m else e
  | none => m

/-- The catch-block classification in `fetchDiffs`: `AbortError` means the
30s budget expired, a message containing `Failed to fetch` is a network
failure, anything else surfaces its own message. -/
def classifyFetchError : JsError → String
  | .abortError => "Request timed out. Please check your connection and try again."
  | .error m =>
    if jsIncludes m "Failed to fetch" then
      "Network error. Please check your internet connection."
    else m

/-- The error paths of `fetchDiffs`: only `error` is set and `isLoading`
cleared; `diffs`, `currentPage`, `nextPage`, `initialFetchDone` are untouched. -/
def fetchFail (s : PageState) (msg : String) : PageState :=
  { s with error := some msg, isLoading := false }

/-- JS `data.nextPage || null`: the number `0` is falsy, so a `0` cursor is
stored as `null`. -/
def jsTruthyCursor : Option Int → Option Int
  | some n => if n = 0 then none else some n
  | none => none

/-- JS `data.currentPage || page`: a falsy (`0`) `currentPage` falls back to
the requested page. -/
def jsOrPage (cp page : Int) : Int := if cp = 0 then page else cp

/-- `fetchDiffs(page)` from `page.tsx`, as a function of the pre-state and the
outcome script.  On success page 1 replaces `diffs` and any later page appends
the validated items (`page === 1 ? validDiffs : [...prevDiffs, ...validDiffs]`);
every failure goes through `fetchFail`. -/
def fetchDiffs (s : PageState) (page : Int) (outcome : FetchOutcome) : PageState :=
  let s := { s with isLoading := true, error := none }
  match outcome with
  | .rejects e => fetchFail s (classifyFetchError e)
  | .httpError st body => fetchFail s (fetchHttpErrorMsg st body)
  | .notJsonContentType => fetchFail s "Invalid response format. Expected JSON."
  | .invalidStructure => fetchFail s "Invalid response data structure."
  | .diffsNotArray => fetchFail s "Invalid diffs data. Expected an array."
  | .ok data =>
    let vd := validDiffs data.diffs
    { s with
      diffs := if page = 1 then vd else s.diffs ++ vd
      currentPage := jsOrPage data.currentPage page
      nextPage := jsTruthyCursor data.nextPage
      initialFetchDone := true
      isLoading := false }

/-- The 30 000 ms budget `setTimeout(() => controller.abort(), 30000)` bound
to every page fetch. -/
def FETCH_TIMEOUT_MS : Nat := 30000

/-- The 60 000 ms budget `setTimeout(() => controller.abort(), 60000)` bound
to every generation request. -/
def GENERATE_TIMEOUT_MS : Nat := 60000

/-- The two awaiting phases of one `generateNotes` call: awaiting the `fetch`
of the generation request, and the `reader.read()` loop over the response
body. -/
inductive GenPhase where
  | request
  | streamRead
deriving DecidableEq, Repr

/-- Whether the 60 000 ms abort timer of `generateNotes` is armed during a
phase, read off the source order: `setTimeout(() => controller.abort(), 60000)`
runs before the `fetch`, and `clearTimeout(timeoutId)` runs as soon as the
`fetch` resolves — before `res.body.getReader()` and the read loop.  The
stream-read phase therefore runs with no timer armed. -/
def timerArmed : GenPhase → Bool
  | .request => true
  | .streamRead => false

/-! ## Generation session (`generateNotes` in `page.tsx`)

The message constants below reproduce the string literals of the source file
byte-for-byte (the decorative glyph prefixes appear in the repository in a
double-encoded form, which is kept as-is). -/

def defaultGenErrorMsg : String :=
  "‚ö†Ô∏è Failed to generate notes. Please try again."

def timeoutGenMsg : String :=
  "‚è±Ô∏è Request timed out. The diff might be too large or the server is busy."

def networkGenMsg : String :=
  "üåê Network error. Please check your connection and try again."

def invalidDataGenMsg : String :=
  "‚ö†Ô∏è Invalid data. This PR might be missing content."

/-- Prefix used in the catch block template string for generic messages. -/
def warnSignPrefix : String := "‚ö†Ô∏è "

def interruptedMarkerMsg : String := "Stream was interrupted. You can resume generation."

def streamReadErrorMsg : String := "Failed to read response stream"

def emptyResponseMsg : String := "Received empty response from AI service"

def invalidPRDataMsg : String := "Invalid PR data: missing description or diff content"

def noStreamMsg : String := "No response stream received from server"

/-- The component state touched by `generateNotes`. -/
structure NotesState where
  generatedNotes : List (String × String)
  expandedPRs : List (String × Bool)
  interruptedStreams : List (String × String)
  loadingPR : Option String
deriving DecidableEq, Repr

/-- How the stream-read loop ends: upstream completion (`done`) or any thrown
error during `reader.read()` — the inner catch of the source discards the
error's identity, so the constructor keeps it only as data. -/
inductive StreamEnd where
  | done
  | errored (e : JsError)
deriving DecidableEq, Repr

/-- Outcome script for one `generateNotes` call: the `fetch` itself rejects
(abort / network drop before a response), `!res.ok`, a response without a
body, or an open stream delivering `chunks` and then ending. -/
inductive GenOutcome where
  | fetchRejects (e : JsError)
  | httpError (status : Nat) (body : Option String)
  | noBody
  | stream (chunks : List String) (fin : StreamEnd)
deriving DecidableEq, Repr

/-- Terminal reading of one `generateNotes` call, following the spec's state
machine: `complete` is the success exit, `interrupted` is the branch that
records the interruption marker, `failed` is the branch that replaces the
text with the diagnostic message. -/
inductive GenTermination where
  | complete
  | interrupted
  | failed
deriving DecidableEq, Repr

/-- The `!res.ok` message of `generateNotes` (429 / ≥500 / 413 cases, then
`errorData.error || errorData.message || errorMsg`). -/
def genHttpErrorMsg (status : Nat) (body : Option String) : String :=
  let m :=
    if status == 429 then "Too many requests. Please wait before generating more notes."
    else if 500 ≤ status then "Server error while generating notes. Please try again."
    else if status == 413 then "Diff content too large. Please try with a smaller diff."
    else "HTTP error! status: " ++ toString status
  match body with
  | some e => if e = "" then m else e
  | none => m

/-- The catch-block classification of `generateNotes`: message and the
`isInterrupted` flag.  Only an `AbortError` or a message containing
`Failed to fetch` counts as an interruption. -/
def classifyGenError : JsError → String × Bool
  | .abortError => (timeoutGenMsg, true)
  | .error m =>
    if jsIncludes m "Failed to fetch" then (networkGenMsg, true)
    else if jsIncludes m "Invalid PR data" then (invalidDataGenMsg, false)
    else if 0 < m.length then (warnSignPrefix ++ m, false)
    else (defaultGenErrorMsg, false)

/-- The inner stream-read catch: `catch (streamErr) { throw new Error("Failed
to read response stream") }` — every error thrown while reading, including the
`AbortError` of an expired budget and transport drops, is rethrown under this
one generic message. -/
def streamPhaseError (_e : JsError) : JsError := .error streamReadErrorMsg

/-- The outer catch block of `generateNotes`.  `notesAtCall` is the
`generatedNotes` object captured by the closure when the call started: the
source reads `generatedNotes[pr.id]` from that stale snapshot, not from the
live state, to decide between the interruption marker and the diagnostic
replacement. -/
def handleGenError (s : NotesState) (notesAtCall : List (String × String))
    (id : String) (e : JsError) : NotesState × GenTermination :=
  let c := classifyGenError e
  let currentContent := (lookupA notesAtCall id).getD ""
  if c.2 = true ∧ jsTrim currentContent ≠ "" then
    ({ s with
        interruptedStreams := insertA s.interruptedStreams id interruptedMarkerMsg
        loadingPR := none },
      .interrupted)
  else
    ({ s with
        generatedNotes := insertA s.generatedNotes id c.1
        loadingPR := none },
      .failed)

/-- The stream-read loop: each decoded chunk is appended to the live
`generatedNotes[pr.id]` through `setGeneratedNotes(prev => ({...prev, [pr.id]:
prev[pr.id] + chunk}))`.  When the entry is absent (`undefined`), JS string
coercion makes `prev[pr.id] + chunk` start with `"undefined"`. -/
def appendChunks (m : List (String × String)) (id : String)
    (chunks : List String) : List (String × String) :=
  chunks.foldl (fun acc c => insertA acc id (((lookupA acc id).getD "undefined") ++ c)) m

/-- `let accumulatedContent = ""` then `accumulatedContent += chunk` per
iteration. -/
def accumulatedOf (chunks : List String) : String :=
  chunks.foldl (fun a c => a ++ c) ""

/-- `generateNotes(pr, isResume)` from `page.tsx`, as a function of the
pre-state, the arguments, and the outcome script.  In call order: capture the
closure snapshot of `generatedNotes`, set `loadingPR`, clear the entry unless
resuming, expand the card, delete the interruption marker, validate the PR
fields, then run the request; a stream delivers its chunks into the live
state and any stream-phase error is rethrown as the generic stream-read
error; normal completion with blank accumulated content throws the
empty-response error, otherwise the call succeeds and clears `loadingPR`. -/
def generateNotes (s0 : NotesState) (pr : DiffItem) (isResume : Bool)
    (outcome : GenOutcome) : NotesState × GenTermination :=
  let notesAtCall := s0.generatedNotes
  let s1 := { s0 with loadingPR := some pr.id }
  let s2 :=
    if isResume then s1
    else { s1 with generatedNotes := insertA s1.generatedNotes pr.id "" }
  let s3 := { s2 with expandedPRs := insertA s2.expandedPRs pr.id true }
  let s4 := { s3 with interruptedStreams := eraseA s3.interruptedStreams pr.id }
  if jsTrim pr.description = "" ∨ jsTrim pr.diff = "" then
    handleGenError s4 notesAtCall pr.id (.error invalidPRDataMsg)
  else
    match outcome with
    | .fetchRejects e => handleGenError s4 notesAtCall pr.id e
    | .httpError st body => handleGenError s4 notesAtCall pr.id (.error (genHttpErrorMsg st body))
    | .noBody => handleGenError s4 notesAtCall pr.id (.error noStreamMsg)
    | .stream chunks fin =>
      let s5 := { s4 with generatedNotes := appendChunks s4.generatedNotes pr.id chunks }
      match fin with
      | .errored e => handleGenError s5 notesAtCall pr.id (streamPhaseError e)
      | .done =>
        if jsTrim (accumulatedOf chunks) = "" then
          handleGenError s5 notesAtCall pr.id (.error emptyResponseMsg)
        else
          ({ s5 with loadingPR := none }, .complete)

/-! ## Persistence mirror and mount hydration (`Home` in `page.tsx`)

Durable storage is a key/value store of serialized snapshots; it is embedded
with one typed slot per `STORAGE_KEYS` entry, `none` standing for an absent
key (serialization being invertible, `JSON.parse ∘ JSON.stringify` is the
identity on these slots). -/

/-- The pagination snapshot stored under `STORAGE_KEYS.PAGINATION`. -/
structure PaginationStored where
  currentPage : Int
  nextPage : Option Int
  initialFetchDone : Bool
deriving DecidableEq, Repr

/-- `localStorage` restricted to the five `STORAGE_KEYS`. -/
structure Storage where
  diffs : Option (List DiffItem)
  notes : Option (List (String × String))
  expanded : Option (List (String × Bool))
  pagination : Option PaginationStored
  interrupted : Option (List (String × String))
deriving DecidableEq, Repr

/-- The persisted component state of `Home`, with the `isHydrated` gate. -/
structure HomeState where
  diffs : List DiffItem
  generatedNotes : List (String × String)
  expandedPRs : List (String × Bool)
  interruptedStreams : List (String × String)
  currentPage : Int
  nextPage : Option Int
  initialFetchDone : Bool
  isHydrated : Bool
deriving DecidableEq, Repr

/-- The `useState` initial values of `Home`. -/
def initialHomeState : HomeState :=
  { diffs := []
    generatedNotes := []
    expandedPRs := []
    interruptedStreams := []
    currentPage := 1
    nextPage := none
    initialFetchDone := false
    isHydrated := false }

/-- The five save effects (`useEffect` blocks guarded by `if (isHydrated)`):
when the gate is open every snapshot is written through to storage, otherwise
nothing is written. -/
def runSaveEffects (st : HomeState) (sto : Storage) : Storage :=
  if st.isHydrated then
    { diffs := some st.diffs
      notes := some st.generatedNotes
      expanded := some st.expandedPRs
      pagination := some ⟨st.currentPage, st.nextPage, st.initialFetchDone⟩
      interrupted := some st.interruptedStreams }
  else sto

/-- `loadStoredData` in the mount effect: read each key with its default,
restore each collection only when non-empty, and restore pagination only when
it differs from the defaults. -/
def loadStoredData (st : HomeState) (sto : Storage) : HomeState :=
  let storedDiffs := sto.diffs.getD []
  let storedNotes := sto.notes.getD []
  let storedExpanded := sto.expanded.getD []
  let storedInterrupted := sto.interrupted.getD []
  let pagination := sto.pagination.getD ⟨1, none, false⟩
  let st := if 0 < storedDiffs.length then { st with diffs := storedDiffs } else st
  let st := if 0 < storedNotes.length then { st with generatedNotes := storedNotes } else st
  let st := if 0 < storedExpanded.length then { st with expandedPRs := storedExpanded } else st
  let st :=
    if 0 < storedInterrupted.length then { st with interruptedStreams := storedInterrupted } else st
  if pagination.currentPage ≠ 1 ∨ pagination.nextPage ≠ none ∨ pagination.initialFetchDone then
    { st with
        currentPage := pagination.currentPage
        nextPage := pagination.nextPage
        initialFetchDone := pagination.initialFetchDone }
  else st

/-- What the browser runs between mount and the deferred `loadStoredData`
timeout: the mount effect calls `setIsHydrated(true)` and schedules the load
with `setTimeout(..., 0)`; the save effects of the mount render see
`isHydrated = false` and write nothing; the `isHydrated` state change
re-renders and re-runs every save effect (the flag is in each dependency
array) with the still-default data — all before the macrotask timeout fires. -/
def mountWriteBeforeLoad (sto : Storage) : Storage :=
  let sto1 := runSaveEffects initialHomeState sto
  runSaveEffects { initialHomeState with isHydrated := true } sto1

/-- The full mount sequence: the pre-load writes, then the deferred
`loadStoredData` reading the storage as the writes left it, then the save
effects for the restored state. -/
def mountSequence (sto : Storage) : HomeState × Storage :=
  let sto2 := mountWriteBeforeLoad sto
  let st2 := loadStoredData { initialHomeState with isHydrated := true } sto2
  (st2, runSaveEffects st2 sto2)

/-! ## Start-generation guard (`Home` JSX, lines 592–596)

The generate button carries `disabled={loadingPR === pr.id}`; clicking it
calls `generateNotes(pr)`, whose first action is `setLoadingPR(pr.id)`.
`activeSessions` is ghost state counting the in-flight `generateNotes`
invocations spawned by clicks: a consumer leaves it only when its own stream
finishes, which `endSession` models. -/

structure UIGenState where
  loadingPR : Option String
  activeSessions : List String
deriving DecidableEq, Repr

def initialUIGenState : UIGenState := ⟨none, []⟩

/-- A click on the generate button for item `id`: a no-op while the button is
disabled (`loadingPR === pr.id`), otherwise it starts a new stream consumer
for `id` and makes `id` the loading item. -/
def clickGenerate (s : UIGenState) (id : String) : UIGenState :=
  if s.loadingPR = some id then s
  else { loadingPR := some id, activeSessions := id :: s.activeSessions }

/-- A session for `id` finishing (success or error): `setLoadingPR(null)` and
its consumer goes away. -/
def endSession (s : UIGenState) (id : String) : UIGenState :=
  { loadingPR := none, activeSessions := s.activeSessions.erase id }

/-- Number of in-flight stream consumers for one item. -/
def sessionCount (s : UIGenState) (id : String) : Nat :=
  (s.activeSessions.filter (fun x => x == id)).length

/-! ## Generation API route (`src/app/api/generate-notes/route.ts`) -/

/-- The `diff.slice(0, 12000)` bound applied to the prompt body. -/
def MAX_DIFF_CHARS : Nat := 12000

/-- `diff.slice(0, 12000)`: the first 12 000 characters of the diff. -/
def slicedDiff (diff : String) : String := String.mk (diff.data.take MAX_DIFF_CHARS)

/-- The `userPrompt` template literal of the route, with the truncated diff
interpolated. -/
def userPrompt (title diff : String) : String :=
  "\nPull Request Title: " ++ title ++ "\n\nGit Diff:\n```diff\n" ++
    slicedDiff diff ++ "\n```\n"


/-! ## Concrete fixtures used by the claim checks -/

/-- A valid item with non-blank description and diff. -/
def pr1 : DiffItem := ⟨"pr-1", "Fix bug", "diff --git a b", "https://example.com/pr-1"⟩

/-- A component state with no notes, no expansion, no markers, no loading item. -/
def freshNotes : NotesState := ⟨[], [], [], none⟩

def itemA : DiffItem := ⟨"1", "d", "x", "u"⟩

/-- A raw record that validates to `itemA`. -/
def rawA : RawDiff := ⟨some "1", some "d", some "x", some "u"⟩

/-- Pagination state already holding `itemA` after a successful page-1 fetch. -/
def pageStateA : PageState := ⟨[itemA], 1, some 2, true, false, none⟩

/-- Durable storage holding a previous session: one item, its notes, and a
pagination snapshot pointing at page 3. -/
def stoA : Storage := ⟨some [itemA], some [("1", "notes for 1")], none, some ⟨3, some 4, true⟩, none⟩

/-- A 20 000-character prompt body. -/
def bigDiff : String := String.mk (List.replicate 20000 'a')

/-! ## Helper lemmas -/

theorem lookupA_insertA_self {β : Type} (m : List (String × β)) (k : String) (v : β) :
    lookupA (insertA m k v) k = some v := by
  induction m with
  | nil => simp [insertA, lookupA]
  | cons hd tl ih =>
    obtain ⟨k', w⟩ := hd
    by_cases h : k' = k
    · simp [insertA, lookupA, h]
    · simp [insertA, lookupA, h, ih]

theorem lookupA_insertA_ne {β : Type} (m : List (String × β)) (k k' : String) (v : β)
    (h : k ≠ k') : lookupA (insertA m k v) k' = lookupA m k' := by
  induction m with
  | nil => simp [insertA, lookupA, h]
  | cons hd tl ih =>
    obtain ⟨k₀, w⟩ := hd
    by_cases h0 : k₀ = k
    · subst h0
      simp [insertA, lookupA, h]
    · simp [insertA, lookupA, h0, ih]

theorem lookupA_eraseA_self {β : Type} (m : List (String × β)) (k : String) :
    lookupA (eraseA m k) k = none := by
  induction m with
  | nil => simp [eraseA, lookupA]
  | cons hd tl ih =>
    obtain ⟨k₀, w⟩ := hd
    by_cases h0 : k₀ = k
    · simp [eraseA, h0, ih]
    · simp [eraseA, lookupA, h0, ih]

/-- String append distributes to the underlying character lists. -/
theorem strData_append (a b : String) : (a ++ b).data = a.data ++ b.data := by
  cases a; cases b; rfl

theorem strAppend_empty (a : String) : a ++ "" = a := by
  cases a with
  | mk l => show String.mk (l ++ []) = String.mk l; rw [List.append_nil]

theorem strEmpty_append (a : String) : "" ++ a = a := by
  cases a with
  | mk l => show String.mk ([] ++ l) = String.mk l; rw [List.nil_append]

theorem strAppend_assoc (a b c : String) : (a ++ b) ++ c = a ++ (b ++ c) := by
  cases a; cases b; cases c
  show String.mk _ = String.mk _
  rw [List.append_assoc]

theorem str_ne_self_append (a b : String) (h : b ≠ "") : a ≠ a ++ b := by
  intro hcontra
  apply h
  have hlen : a.data.length = (a ++ b).data.length := by rw [← hcontra]
  rw [strData_append, List.length_append] at hlen
  have : b.data.length = 0 := by omega
  cases b with
  | mk l =>
    cases l with
    | nil => rfl
    | cons c cs => simp at this


theorem foldl_append_str (cs : List String) : ∀ a : String,
    cs.foldl (fun x c => x ++ c) a = a ++ cs.foldl (fun x c => x ++ c) "" := by
  induction cs with
  | nil => intro a; simp [List.foldl, strAppend_empty]
  | cons c cs ih =>
    intro a
    simp only [List.foldl]
    rw [ih (a ++ c), ih ("" ++ c), strEmpty_append, strAppend_assoc]

theorem accumulatedOf_cons (c : String) (cs : List String) :
    accumulatedOf (c :: cs) = c ++ accumulatedOf cs := by
  simp only [accumulatedOf, List.foldl]
  rw [foldl_append_str cs ("" ++ c), strEmpty_append]

/-- Consuming a chunk list appends its concatenation to the owning entry. -/
theorem lookupA_appendChunks (cs : List String) :
    ∀ (m : List (String × String)) (id t : String),
      lookupA m id = some t →
      lookupA (appendChunks m id cs) id = some (t ++ accumulatedOf cs) := by
  induction cs with
  | nil =>
    intro m id t h
    simpa [appendChunks, accumulatedOf, List.foldl, strAppend_empty] using h
  | cons c cs ih =>
    intro m id t h
    have h1 : lookupA (insertA m id (((lookupA m id).getD "undefined") ++ c)) id
        = some (t ++ c) := by
      rw [h]
      exact lookupA_insertA_self m id (t ++ c)
    have h2 := ih (insertA m id (((lookupA m id).getD "undefined") ++ c)) id (t ++ c) h1
    simp only [appendChunks, List.foldl] at h2 ⊢
    rw [h2, accumulatedOf_cons, strAppend_assoc]

theorem jsTrim_empty : jsTrim "" = "" := by decide

theorem ne_empty_of_jsTrim_ne_empty {a : String} (h : jsTrim a ≠ "") : a ≠ "" := by
  intro hc
  subst hc
  exact h jsTrim_empty

/-- The empty-response diagnostic is not an interruption. -/
theorem classify_emptyResponse :
    classifyGenError (.error emptyResponseMsg) = (warnSignPrefix ++ emptyResponseMsg, false) := by
  decide

/-- The generic stream-read diagnostic is not an interruption. -/
theorem classify_streamReadError :
    classifyGenError (.error streamReadErrorMsg) =
      (warnSignPrefix ++ streamReadErrorMsg, false) := by
  decide

/-- When the classification is not an interruption, the catch block replaces
the entry with the diagnostic and reports failure, regardless of the snapshot. -/
theorem handleGenError_notInterrupted (s : NotesState)
    (notesAtCall : List (String × String)) (id : String) (e : JsError)
    (h : (classifyGenError e).2 = false) :
    handleGenError s notesAtCall id e =
      ({ s with
          generatedNotes := insertA s.generatedNotes id (classifyGenError e).1
          loadingPR := none },
        .failed) := by
  simp [handleGenError, h]

/-! ## Claim checks -/

/-- C1: evaluating the code at the claim's own scenario refutes it.  A fresh
session accumulates the increments `"Hello, "` and `"world"` and then the
transport drops mid-read.  The inner stream catch rethrows the drop as the
generic stream-read error (never classified as recoverable), and the outer
catch consults the call-time closure snapshot of `generatedNotes` (empty), so
the session ends in the Failed branch: the accumulated text is replaced by the
diagnostic message and no interruption marker is recorded — not the claimed
Interrupted state with `accumulatedText == "Hello, world"` preserved. -/
theorem C1_transport_drop_ends_failed :
    generateNotes freshNotes pr1 false
        (.stream ["Hello, ", "world"] (.errored (.error "connection lost"))) =
      (⟨[("pr-1", warnSignPrefix ++ streamReadErrorMsg)], [("pr-1", true)], [], none⟩,
        .failed) ∧
    warnSignPrefix ++ streamReadErrorMsg ≠ "Hello, world" := by
  decide

/-- C2 counterexample: the held sequence contains `itemA` (id "1"); a
successful page-2 fetch delivering a record with the same id appends it again,
so the held sequence holds two items with the same id — refuting the claimed
de-duplication. -/
theorem C2_duplicate_id_appended :
    (fetchDiffs pageStateA 2 (.ok ⟨[rawA], some 3, 2, 10⟩)).diffs = [itemA, itemA] ∧
    ((fetchDiffs pageStateA 2 (.ok ⟨[rawA], some 3, 2, 10⟩)).diffs.filter
        (fun d => d.id == "1")).length = 2 := by
  decide

/-- C2 as amended: for every successful fetch of a page other than 1, the
validated incoming items are appended to the held sequence in order with no
de-duplication by id. -/
theorem C2_later_pages_append_without_dedup (s : PageState) (page : Int)
    (data : ApiResponseM) (h : page ≠ 1) :
    (fetchDiffs s page (.ok data)).diffs = s.diffs ++ validDiffs data.diffs := by
  simp [fetchDiffs, h]

theorem C2_later_pages_append_without_dedup_w :
    (fetchDiffs pageStateA 3 (.ok ⟨[rawA], none, 3, 10⟩)).diffs
      = pageStateA.diffs ++ validDiffs [rawA] :=
  C2_later_pages_append_without_dedup pageStateA 3 ⟨[rawA], none, 3, 10⟩ (by decide)

/-- C3 counterexample: the generate button is disabled only while
`loadingPR === pr.id`.  Clicking generate on "A", then on "B" (which retargets
`loadingPR`), then on "A" again leaves two in-flight stream consumers on item
"A" — refuting the claim that a start for an already-generating item is
rejected or replaces the running session. -/
theorem C3_two_concurrent_sessions_one_item :
    sessionCount
        (clickGenerate (clickGenerate (clickGenerate initialUIGenState "A") "B") "A")
        "A" = 2 := by
  decide

/-- C3 as amended: a start call for an item is rejected as a no-op exactly
while that item is the currently tracked loading item (`loadingPR`); otherwise
it starts a fresh stream consumer for the item even if one is already active,
since the guard tracks only the most recent start. -/
theorem C3_start_rejected_only_while_tracked (s : UIGenState) (id : String) :
    (s.loadingPR = some id → clickGenerate s id = s) ∧
    (s.loadingPR ≠ some id →
      clickGenerate s id = ⟨some id, id :: s.activeSessions⟩) := by
  constructor <;> intro h <;> simp [clickGenerate, h]

theorem C3_start_rejected_only_while_tracked_w :
    clickGenerate ⟨some "A", ["A"]⟩ "A" = ⟨some "A", ["A"]⟩ :=
  (C3_start_rejected_only_while_tracked ⟨some "A", ["A"]⟩ "A").1 rfl

/-- C4: evaluating the mount sequence at a storage holding a previous session
refutes the claim.  The mount effect sets `isHydrated` before the deferred
`loadStoredData` runs, so the re-run save effects write the empty defaults to
every storage key first; the load then finds only the defaults, and both the
restored state and the durable storage end empty — a write was issued before
the hydration pass completed and it overwrote stored state with defaults. -/
theorem C4_defaults_written_before_load :
    (mountWriteBeforeLoad stoA).diffs = some [] ∧
    (mountWriteBeforeLoad stoA).notes = some [] ∧
    (mountWriteBeforeLoad stoA).pagination = some ⟨1, none, false⟩ ∧
    (mountSequence stoA).1.diffs = [] ∧
    (mountSequence stoA).1.generatedNotes = [] ∧
    (mountSequence stoA).1.currentPage = 1 ∧
    (mountSequence stoA).2.diffs = some [] := by
  decide

/-- C8: every failed page fetch (HTTP error, bad content type, malformed
response, network failure, abort) leaves the held items, the current page, the
cursor and the initial-fetch flag unchanged; only success updates them. -/
theorem C8_failed_fetch_preserves_pagination (s : PageState) (page : Int)
    (o : FetchOutcome) (h : ∀ d, o ≠ .ok d) :
    (fetchDiffs s page o).diffs = s.diffs ∧
    (fetchDiffs s page o).currentPage = s.currentPage ∧
    (fetchDiffs s page o).nextPage = s.nextPage ∧
    (fetchDiffs s page o).initialFetchDone = s.initialFetchDone := by
  cases o with
  | ok d => exact absurd rfl (h d)
  | httpError st body => exact ⟨rfl, rfl, rfl, rfl⟩
  | notJsonContentType => exact ⟨rfl, rfl, rfl, rfl⟩
  | invalidStructure => exact ⟨rfl, rfl, rfl, rfl⟩
  | diffsNotArray => exact ⟨rfl, rfl, rfl, rfl⟩
  | rejects e => exact ⟨rfl, rfl, rfl, rfl⟩

theorem C8_failed_fetch_preserves_pagination_w :
    (fetchDiffs pageStateA 5 (.rejects .abortError)).diffs = pageStateA.diffs ∧
    (fetchDiffs pageStateA 5 (.rejects .abortError)).currentPage = pageStateA.currentPage ∧
    (fetchDiffs pageStateA 5 (.rejects .abortError)).nextPage = pageStateA.nextPage ∧
    (fetchDiffs pageStateA 5 (.rejects .abortError)).initialFetchDone
      = pageStateA.initialFetchDone :=
  C8_failed_fetch_preserves_pagination pageStateA 5 (.rejects .abortError)
    (fun _ h => nomatch h)

/-- C9 counterexample: the 60 s timer of a generation session is cleared as
soon as the `fetch` resolves, before the body reader is obtained, so the
stream-read phase runs with no time budget armed at all — refuting, at the
concrete phase the claim itself singles out, that the stream-read phase of a
generation session is bound to a budget whose expiry cancels it. -/
theorem C9_stream_read_phase_unbudgeted :
    timerArmed GenPhase.streamRead = false ∧ timerArmed GenPhase.request = true := by
  decide

/-- C9 as amended: the request phase of every network operation is bound to an
explicit time budget — 30 000 ms for page fetches, 60 000 ms for generation —
and expiry while the request is awaited aborts it and surfaces a timed-out
outcome (the timed-out error for a page fetch, the timed-out interruption
classification for a generation request); but the timer is cleared as soon as
the response arrives, before the body is read, so the stream-read phase of a
generation session is bound to no budget and is never cancelled by expiry. -/
theorem C9_request_phase_budget_only :
    FETCH_TIMEOUT_MS = 30000 ∧ GENERATE_TIMEOUT_MS = 60000 ∧
    timerArmed GenPhase.request = true ∧
    timerArmed GenPhase.streamRead = false ∧
    (∀ (s : PageState) (page : Int),
      (fetchDiffs s page (.rejects .abortError)).error =
        some "Request timed out. Please check your connection and try again.") ∧
    classifyGenError .abortError = (timeoutGenMsg, true) := by
  refine ⟨rfl, rfl, rfl, rfl, ?_, by decide⟩
  intro s page
  simp [fetchDiffs, fetchFail, classifyFetchError]

theorem C9_request_phase_budget_only_w :
    (fetchDiffs pageStateA 1 (.rejects .abortError)).error =
      some "Request timed out. Please check your connection and try again." :=
  C9_request_phase_budget_only.2.2.2.2.1 pageStateA 1

/-- C10: on a successful page fetch the stored cursor is the response's
`nextPage` only when that value is truthy (`0` and `null` both store `null`,
treating a `0` cursor as end-of-data), and the stored current page falls back
to the requested page exactly when the response's `currentPage` is falsy. -/
theorem C10_cursor_and_page_truthiness (s : PageState) (page : Int)
    (d : ApiResponseM) :
    ((d.nextPage = some 0 ∨ d.nextPage = none) →
      (fetchDiffs s page (.ok d)).nextPage = none) ∧
    (∀ n : Int, n ≠ 0 → d.nextPage = some n →
      (fetchDiffs s page (.ok d)).nextPage = some n) ∧
    (d.currentPage = 0 → (fetchDiffs s page (.ok d)).currentPage = page) ∧
    (d.currentPage ≠ 0 → (fetchDiffs s page (.ok d)).currentPage = d.currentPage) := by
  refine ⟨?_, ?_, ?_, ?_⟩
  · rintro (h | h) <;> simp [fetchDiffs, jsTruthyCursor, h]
  · intro n hn h
    simp [fetchDiffs, jsTruthyCursor, h, hn]
  · intro h
    simp [fetchDiffs, jsOrPage, h]
  · intro h
    simp [fetchDiffs, jsOrPage, h]

theorem C10_cursor_and_page_truthiness_w :
    (fetchDiffs pageStateA 7 (.ok ⟨[rawA], some 0, 0, 10⟩)).nextPage = none ∧
    (fetchDiffs pageStateA 7 (.ok ⟨[rawA], some 0, 0, 10⟩)).currentPage = 7 :=
  ⟨(C10_cursor_and_page_truthiness pageStateA 7 ⟨[rawA], some 0, 0, 10⟩).1 (Or.inl rfl),
    (C10_cursor_and_page_truthiness pageStateA 7 ⟨[rawA], some 0, 0, 10⟩).2.2.1 rfl⟩

/-- C5: starting with `resume == true` leaves the existing accumulated text in
place and the completed text is that text followed by the new increments — a
strict extension whenever the increments are non-blank — while starting with
`resume == false` clears the entry to `""` before the first append, so the
completed text is exactly the concatenation of the new increments. -/
theorem C5_resume_preserves_restart_clears (s : NotesState) (pr : DiffItem)
    (chunks : List String) (t0 : String)
    (hdesc : jsTrim pr.description ≠ "") (hdiff : jsTrim pr.diff ≠ "")
    (hne : jsTrim (accumulatedOf chunks) ≠ "") :
    (lookupA s.generatedNotes pr.id = some t0 →
      lookupA (generateNotes s pr true (.stream chunks .done)).1.generatedNotes pr.id
          = some (t0 ++ accumulatedOf chunks) ∧
        t0 ≠ t0 ++ accumulatedOf chunks ∧
        (generateNotes s pr true (.stream chunks .done)).2 = .complete) ∧
    (lookupA (generateNotes s pr false (.stream chunks .done)).1.generatedNotes pr.id
        = some (accumulatedOf chunks) ∧
      (generateNotes s pr false (.stream chunks .done)).2 = .complete) := by
  have hval : ¬(jsTrim pr.description = "" ∨ jsTrim pr.diff = "") := by
    simp [hdesc, hdiff]
  have hacc : accumulatedOf chunks ≠ "" := ne_empty_of_jsTrim_ne_empty hne
  constructor
  · intro h0
    refine ⟨?_, str_ne_self_append t0 (accumulatedOf chunks) hacc, ?_⟩
    · simp only [generateNotes, if_neg hval, if_neg hne, if_pos]
      exact lookupA_appendChunks chunks s.generatedNotes pr.id t0 h0
    · simp [generateNotes, if_neg hval, if_neg hne]
  · constructor
    · have h1 : lookupA (insertA s.generatedNotes pr.id "") pr.id = some "" :=
        lookupA_insertA_self s.generatedNotes pr.id ""
      have h2 := lookupA_appendChunks chunks (insertA s.generatedNotes pr.id "")
        pr.id "" h1
      simp [generateNotes, if_neg hval, if_neg hne]
      rw [h2, strEmpty_append]
    · simp [generateNotes, if_neg hval, if_neg hne]

theorem C5_resume_preserves_restart_clears_w :
    lookupA (generateNotes ⟨[("pr-1", "Hello, world")], [], [], none⟩ pr1 true
          (.stream ["!", "?"] .done)).1.generatedNotes "pr-1"
        = some "Hello, world!?" ∧
    lookupA (generateNotes ⟨[("pr-1", "Hello, world")], [], [], none⟩ pr1 false
          (.stream ["!", "?"] .done)).1.generatedNotes "pr-1"
        = some "!?" := by
  have h := C5_resume_preserves_restart_clears
    ⟨[("pr-1", "Hello, world")], [], [], none⟩ pr1 ["!", "?"] "Hello, world"
    (by decide) (by decide) (by decide)
  exact ⟨(h.1 rfl).1, h.2.1⟩

/-- C6: a stream that completes normally while the accumulated content is
blank ends the session in the Failed branch, never Complete, and the entry is
replaced with the empty-response diagnostic. -/
theorem C6_empty_completion_is_failed (s : NotesState) (pr : DiffItem)
    (isResume : Bool) (chunks : List String)
    (hdesc : jsTrim pr.description ≠ "") (hdiff : jsTrim pr.diff ≠ "")
    (hempty : jsTrim (accumulatedOf chunks) = "") :
    (generateNotes s pr isResume (.stream chunks .done)).2 = .failed ∧
    (generateNotes s pr isResume (.stream chunks .done)).2 ≠ .complete ∧
    lookupA (generateNotes s pr isResume (.stream chunks .done)).1.generatedNotes pr.id
      = some (warnSignPrefix ++ emptyResponseMsg) := by
  have hval : ¬(jsTrim pr.description = "" ∨ jsTrim pr.diff = "") := by
    simp [hdesc, hdiff]
  have hfl : (classifyGenError (.error emptyResponseMsg)).2 = false := by
    rw [classify_emptyResponse]
  simp only [generateNotes, if_neg hval, if_pos hempty,
    handleGenError_notInterrupted _ _ _ _ hfl]
  simp [lookupA_insertA_self, classify_emptyResponse]

theorem C6_empty_completion_is_failed_w :
    (generateNotes freshNotes pr1 false (.stream [] .done)).2 = .failed ∧
    (generateNotes freshNotes pr1 false (.stream [] .done)).2 ≠ .complete ∧
    lookupA (generateNotes freshNotes pr1 false
          (.stream [] .done)).1.generatedNotes "pr-1"
      = some (warnSignPrefix ++ emptyResponseMsg) :=
  C6_empty_completion_is_failed freshNotes pr1 false [] (by decide) (by decide)
    (by decide)

/-- C7: the route interpolates only `diff.slice(0, 12000)` into the upstream
prompt: the sent body part is the first 12 000 characters of the diff (for any
diff of 20 000 characters, exactly its first 12 000). -/
theorem C7_prompt_body_truncated (t d : String) (h : d.data.length = 20000) :
    (slicedDiff d).data.length = 12000 ∧
    (slicedDiff d).data = d.data.take 12000 ∧
    (slicedDiff d).data ++ d.data.drop 12000 = d.data ∧
    userPrompt t d =
      "\nPull Request Title: " ++ t ++ "\n\nGit Diff:\n```diff\n" ++
        String.mk (d.data.take 12000) ++ "\n```\n" := by
  refine ⟨?_, rfl, ?_, rfl⟩
  · show (d.data.take 12000).length = 12000
    rw [List.length_take, h]
    decide
  · show d.data.take 12000 ++ d.data.drop 12000 = d.data
    exact List.take_append_drop 12000 d.data

theorem C7_prompt_body_truncated_w :
    (slicedDiff bigDiff).data.length = 12000 ∧
    (slicedDiff bigDiff).data = bigDiff.data.take 12000 ∧
    (slicedDiff bigDiff).data ++ bigDiff.data.drop 12000 = bigDiff.data ∧
    userPrompt "t" bigDiff =
      "\nPull Request Title: " ++ "t" ++ "\n\nGit Diff:\n```diff\n" ++
        String.mk (bigDiff.data.take 12000) ++ "\n```\n" :=
  C7_prompt_body_truncated "t" bigDiff
    (by rw [show bigDiff.data = List.replicate 20000 'a' from rfl, List.length_replicate])

end DiffDigest
